import Mathlib

/-!
Verification of the `pipelineopt` estimator (`src/pipelineopt/estimator.py`,
class `Classifier`) against its specification.

The embedding is shallow: the external collaborators (grammar walker, code
renderer, `eval`-based model construction, model training/prediction, the
seeded `sklearn.utils.shuffle`) are bundled in an `Externals` record of pure
functions; a raised Python exception in a fallible collaborator is modelled by
`Option` (`none` = the call raised).  The mutable attributes of a `Classifier`
instance are a `ClassifierState` record threaded explicitly; `Classifier.fit`
returns `Except FitError` — `FitError.assertionError` models the failed
`assert`, `FitError.constructionError` a propagated exception from
`eval(code)`, and `FitError.noModel` the `AttributeError` raised when
`predict` is called while `best_estimator_` is `None`.  Python numbers are
embedded as exact rationals, rows and labels as lists.
-/

namespace PipelineOpt

variable {ρ lab ω μ : Type}

/-- External collaborators of `Classifier`, as consumed by `fit`/`predict`:
`walk` advances the walker state (`wl.walk()`), `renderTerminals` reads back
the rendered code (`as_str(wl.terminals)`), `evalCode` models `eval(code)`
(`none` = the expression raised), `trainModel` models `clf.fit(X, y)`
returning the trained model (`none` = training raised), `predict` and
`predictProba` the model's prediction methods, and `shuffle` the seeded
`sklearn.utils.shuffle(X, y, random_state=seed)`. -/
structure Externals (ρ lab ω μ : Type) where
  walk : ω → ω
  renderTerminals : ω → String
  evalCode : String → Option μ
  trainModel : μ → List ρ → List lab → Option μ
  predict : μ → List ρ → List lab
  predictProba : μ → List ρ → List (List ℚ)
  shuffle : Nat → List ρ → List lab → List ρ × List lab

/-- The constructor parameters of `Classifier` that configure a run (the
walker's start state lives in `ClassifierState.walker`). -/
structure Config (lab : Type) where
  nb_iter : Nat
  score : List lab → List lab → ℚ
  valid_ratio : ℚ
  random_state : Nat
  verbose : Bool

/-- The mutable attributes of a `Classifier` instance. -/
structure ClassifierState (ω μ : Type) where
  walker : ω
  codes_ : List String
  estimators_ : List μ
  scores_ : List ℚ
  best_score_ : Option ℚ
  best_estimator_ : Option μ
  best_estimator_code_ : Option String

/-- `Classifier.__init__`: empty candidate lists, unset best fields. -/
def initState (w : ω) : ClassifierState ω μ :=
  { walker := w
    codes_ := []
    estimators_ := []
    scores_ := []
    best_score_ := none
    best_estimator_ := none
    best_estimator_code_ := none }

/-- Python's `int()` on a rational: truncation toward zero. -/
def pyInt (q : ℚ) : Int := if q < 0 then q.ceil else q.floor

/-- A Python slice endpoint normalised against a list length: a negative
index counts from the end and is clamped below at 0. -/
def pySliceIdx (n : Nat) (m : Int) : Nat :=
  if m < 0 then ((n : Int) + m).toNat else m.toNat

/-- Lines 86-101 of `Classifier.fit`: resolve the training data and the
validation data from `X`, `y` and the optional `X_valid`/`y_valid`.  Returns
`((X_train, y_train), (X_valid, y_valid))` with the validation parts still
optional (the following `assert` checks them).  When both explicit validation
arguments are absent and `valid_ratio > 0`, the data is shuffled under
`random_state` and split at `nb_train = len(X) - int(len(X) * valid_ratio)`
using Python slice semantics; when both are absent and `valid_ratio <= 0`,
the full training set doubles as validation data; otherwise `X`, `y` are used
unchanged and the explicit arguments pass through as given. -/
def resolveData (ext : Externals ρ lab ω μ) (cfg : Config lab)
    (X : List ρ) (y : List lab)
    (X_valid : Option (List ρ)) (y_valid : Option (List lab)) :
    (List ρ × List lab) × (Option (List ρ) × Option (List lab)) :=
  match X_valid, y_valid with
  | none, none =>
    if 0 < cfg.valid_ratio then
      let p := ext.shuffle cfg.random_state X y
      let nb_train : Int := (p.1.length : Int) - pyInt ((p.1.length : ℚ) * cfg.valid_ratio)
      ((p.1.take (pySliceIdx p.1.length nb_train), p.2.take (pySliceIdx p.2.length nb_train)),
       (some (p.1.drop (pySliceIdx p.1.length nb_train)),
        some (p.2.drop (pySliceIdx p.2.length nb_train))))
    else
      ((X, y), (some X, some y))
  | xv, yv => ((X, y), (xv, yv))

/-- The failure modes of `Classifier.fit`/`predict` that reach the caller. -/
inductive FitError where
  | assertionError : FitError
  | constructionError : String → FitError
  | noModel : FitError
deriving DecidableEq

/-- One iteration of the search loop (lines 106-124): advance the walker,
render the code, `eval` it (an exception here propagates — the `eval` call
stands before the `try` block), train (an exception here is caught and the
iteration skipped), otherwise score the model on the validation data and
append `(code, model, score)` to the candidate lists. -/
def fitIter (ext : Externals ρ lab ω μ) (cfg : Config lab)
    (X_train : List ρ) (y_train : List lab) (X_val : List ρ) (y_val : List lab)
    (st : ClassifierState ω μ) : Except FitError (ClassifierState ω μ) :=
  match ext.evalCode (ext.renderTerminals (ext.walk st.walker)) with
  | none => .error (.constructionError (ext.renderTerminals (ext.walk st.walker)))
  | some clf =>
    match ext.trainModel clf X_train y_train with
    | none => .ok { st with walker := ext.walk st.walker }
    | some clf2 =>
      .ok { st with
              walker := ext.walk st.walker
              codes_ := st.codes_ ++ [ext.renderTerminals (ext.walk st.walker)]
              estimators_ := st.estimators_ ++ [clf2]
              scores_ := st.scores_ ++ [cfg.score y_val (ext.predict clf2 X_val)] }

/-- The search loop: `nb_iter` iterations of `fitIter`, threading the state;
a propagated construction exception aborts the loop. -/
def fitLoop (ext : Externals ρ lab ω μ) (cfg : Config lab)
    (X_train : List ρ) (y_train : List lab) (X_val : List ρ) (y_val : List lab) :
    Nat → ClassifierState ω μ → Except FitError (ClassifierState ω μ)
  | 0, st => .ok st
  | n + 1, st =>
    match fitIter ext cfg X_train y_train X_val y_val st with
    | .error e => .error e
    | .ok st2 => fitLoop ext cfg X_train y_train X_val y_val n st2

/-- `np.argmax` over a list of scores: the first index whose entry is greater
than or equal to every entry of the list (`np.argmax` documents that ties
resolve to the first occurrence). -/
def firstArgmax (l : List ℚ) : Nat :=
  l.findIdx (fun x => l.all (fun z => decide (z ≤ x)))

/-- Lines 126-130 of `Classifier.fit`: when the candidate list is non-empty,
set the best fields from the entries at `np.argmax(scores_)`; otherwise leave
the state untouched. -/
def selectBest (st : ClassifierState ω μ) : ClassifierState ω μ :=
  if st.scores_.length ≠ 0 then
    { st with
        best_score_ := st.scores_.get? (firstArgmax st.scores_)
        best_estimator_ := st.estimators_.get? (firstArgmax st.scores_)
        best_estimator_code_ := st.codes_.get? (firstArgmax st.scores_) }
  else st

/-- `Classifier.fit`: resolve the data, assert that validation data is
present, run the search loop, then select the best candidate over the full
accumulated candidate lists.  The updated instance state is returned on
success. -/
def Classifier.fit (ext : Externals ρ lab ω μ) (cfg : Config lab)
    (st : ClassifierState ω μ) (X : List ρ) (y : List lab)
    (X_valid : Option (List ρ)) (y_valid : Option (List lab)) :
    Except FitError (ClassifierState ω μ) :=
  let r := resolveData ext cfg X y X_valid y_valid
  match r.2.1, r.2.2 with
  | some Xv, some yv =>
    match fitLoop ext cfg r.1.1 r.1.2 Xv yv cfg.nb_iter st with
    | .error e => .error e
    | .ok st2 => .ok (selectBest st2)
  | _, _ => .error .assertionError

/-- `Classifier.predict`: delegates to `best_estimator_.predict`; with no
model selected (`best_estimator_` is `None`) the attribute access raises. -/
def Classifier.predict (ext : Externals ρ lab ω μ) (st : ClassifierState ω μ)
    (X : List ρ) : Except FitError (List lab) :=
  match st.best_estimator_ with
  | none => .error .noModel
  | some m => .ok (ext.predict m X)

/-- `Classifier.predict_proba`: delegates to `best_estimator_.predict_proba`;
with no model selected the attribute access raises. -/
def Classifier.predict_proba (ext : Externals ρ lab ω μ) (st : ClassifierState ω μ)
    (X : List ρ) : Except FitError (List (List ℚ)) :=
  match st.best_estimator_ with
  | none => .error .noModel
  | some m => .ok (ext.predictProba m X)

/-- The candidate lists of a state agree in length. -/
def wellFormed (st : ClassifierState ω μ) : Prop :=
  st.codes_.length = st.scores_.length ∧ st.estimators_.length = st.scores_.length

/-! ### Concrete collaborator instances, for evaluating the theorems on runs

`extW` is a benign instance over `Nat` rows, labels, walker states and
models: the walker counts up, the rendered code of state `w` is a string of
`w` letters, `eval` maps a code to its length, training succeeds and returns
the model, and a model `m` predicts the constant label `m`.  `extFail` makes
every training call raise; `extCrash` makes every `eval` call raise. -/

/-- A benign concrete collaborator instance. -/
def extW : Externals Nat Nat Nat Nat :=
  { walk := fun w => w + 1
    renderTerminals := fun w => String.mk (List.replicate w 'a')
    evalCode := fun s => some s.length
    trainModel := fun m _ _ => some m
    predict := fun m X => X.map (fun _ => m)
    predictProba := fun _ X => X.map (fun _ => [1])
    shuffle := fun _ X y => (X, y) }

/-- Like `extW`, but every training call raises. -/
def extFail : Externals Nat Nat Nat Nat :=
  { extW with trainModel := fun _ _ _ => none }

/-- Like `extW`, but every `eval(code)` call raises. -/
def extCrash : Externals Nat Nat Nat Nat :=
  { extW with evalCode := fun _ => none }

/-- A concrete configuration: three iterations, the score of a prediction is
its first label, no held-out ratio. -/
def cfgW : Config Nat :=
  { nb_iter := 3
    score := fun _ yp => ((yp.headD 0 : Nat) : ℚ)
    valid_ratio := 0
    random_state := 42
    verbose := false }

/-! ### Basic lemmas about the loop, the selection step and `fit` -/

/-- A successful iteration either leaves the candidate lists unchanged (the
training call raised and was caught) or appends exactly one entry to each of
them; the best fields are untouched either way. -/
theorem fitIter_ok_cases {ext : Externals ρ lab ω μ} {cfg : Config lab}
    {Xt : List ρ} {yt : List lab} {Xv : List ρ} {yv : List lab}
    {st st2 : ClassifierState ω μ}
    (h : fitIter ext cfg Xt yt Xv yv st = .ok st2) :
    ((st2.codes_ = st.codes_ ∧ st2.estimators_ = st.estimators_ ∧ st2.scores_ = st.scores_) ∨
      (∃ c m s, st2.codes_ = st.codes_ ++ [c] ∧ st2.estimators_ = st.estimators_ ++ [m] ∧
        st2.scores_ = st.scores_ ++ [s])) ∧
    st2.best_score_ = st.best_score_ ∧ st2.best_estimator_ = st.best_estimator_ ∧
    st2.best_estimator_code_ = st.best_estimator_code_ := by
  unfold fitIter at h
  split at h
  · exact Except.noConfusion h
  · split at h
    · injection h with h
      subst h
      exact ⟨Or.inl ⟨rfl, rfl, rfl⟩, rfl, rfl, rfl⟩
    · injection h with h
      subst h
      exact ⟨Or.inr ⟨_, _, _, rfl, rfl, rfl⟩, rfl, rfl, rfl⟩

/-- An iteration fails only by propagating a construction (`eval`) error. -/
theorem fitIter_error_shape {ext : Externals ρ lab ω μ} {cfg : Config lab}
    {Xt : List ρ} {yt : List lab} {Xv : List ρ} {yv : List lab}
    {st : ClassifierState ω μ} {e : FitError}
    (h : fitIter ext cfg Xt yt Xv yv st = .error e) :
    ∃ c, e = .constructionError c := by
  unfold fitIter at h
  split at h
  · injection h with h
    exact ⟨_, h.symm⟩
  · split at h
    · exact Except.noConfusion h
    · exact Except.noConfusion h

/-- A successful run of the loop appends equal-length tails to the three
candidate lists and leaves the best fields untouched. -/
theorem fitLoop_ok_extend {ext : Externals ρ lab ω μ} {cfg : Config lab}
    {Xt : List ρ} {yt : List lab} {Xv : List ρ} {yv : List lab}
    {n : Nat} {st st2 : ClassifierState ω μ}
    (h : fitLoop ext cfg Xt yt Xv yv n st = .ok st2) :
    (∃ tc tm ts, st2.codes_ = st.codes_ ++ tc ∧ st2.estimators_ = st.estimators_ ++ tm ∧
      st2.scores_ = st.scores_ ++ ts ∧ tc.length = ts.length ∧ tm.length = ts.length) ∧
    st2.best_score_ = st.best_score_ ∧ st2.best_estimator_ = st.best_estimator_ ∧
    st2.best_estimator_code_ = st.best_estimator_code_ := by
  induction n generalizing st with
  | zero =>
    unfold fitLoop at h
    injection h with h
    subst h
    exact ⟨⟨[], [], [], by simp, by simp, by simp, rfl, rfl⟩, rfl, rfl, rfl⟩
  | succ n ih =>
    unfold fitLoop at h
    cases hit : fitIter ext cfg Xt yt Xv yv st with
    | error e => rw [hit] at h; exact Except.noConfusion h
    | ok stMid =>
      rw [hit] at h
      obtain ⟨⟨tc, tm, ts, hc, hm, hs, hlc, hlm⟩, hb1, hb2, hb3⟩ := ih h
      obtain ⟨hcase, hbb1, hbb2, hbb3⟩ := fitIter_ok_cases hit
      refine ⟨?_, hb1.trans hbb1, hb2.trans hbb2, hb3.trans hbb3⟩
      rcases hcase with ⟨h1, h2, h3⟩ | ⟨c, m, s, h1, h2, h3⟩
      · exact ⟨tc, tm, ts, by rw [hc, h1], by rw [hm, h2], by rw [hs, h3], hlc, hlm⟩
      · exact ⟨c :: tc, m :: tm, s :: ts,
          by rw [hc, h1]; simp, by rw [hm, h2]; simp, by rw [hs, h3]; simp,
          by simpa using hlc, by simpa using hlm⟩

/-- The loop fails only by propagating a construction error. -/
theorem fitLoop_error_shape {ext : Externals ρ lab ω μ} {cfg : Config lab}
    {Xt : List ρ} {yt : List lab} {Xv : List ρ} {yv : List lab}
    {n : Nat} {st : ClassifierState ω μ} {e : FitError}
    (h : fitLoop ext cfg Xt yt Xv yv n st = .error e) :
    ∃ c, e = .constructionError c := by
  induction n generalizing st with
  | zero => unfold fitLoop at h; exact Except.noConfusion h
  | succ n ih =>
    unfold fitLoop at h
    cases hit : fitIter ext cfg Xt yt Xv yv st with
    | error e2 =>
      rw [hit] at h
      injection h with h
      subst h
      exact fitIter_error_shape hit
    | ok stMid => rw [hit] at h; exact ih h

/-- The selection step never touches the candidate lists or the walker. -/
theorem selectBest_lists (st : ClassifierState ω μ) :
    (selectBest st).codes_ = st.codes_ ∧ (selectBest st).estimators_ = st.estimators_ ∧
    (selectBest st).scores_ = st.scores_ ∧ (selectBest st).walker = st.walker := by
  unfold selectBest
  split <;> exact ⟨rfl, rfl, rfl, rfl⟩

/-- With an empty score list the selection step is the identity. -/
theorem selectBest_of_empty {st : ClassifierState ω μ} (h : st.scores_ = []) :
    selectBest st = st := by
  unfold selectBest
  rw [if_neg]
  simp [h]

/-- With a non-empty score list the selection step sets the three best fields
from the entries at index `firstArgmax st.scores_`. -/
theorem selectBest_of_ne {st : ClassifierState ω μ} (h : st.scores_ ≠ []) :
    (selectBest st).best_score_ = st.scores_.get? (firstArgmax st.scores_) ∧
    (selectBest st).best_estimator_ = st.estimators_.get? (firstArgmax st.scores_) ∧
    (selectBest st).best_estimator_code_ = st.codes_.get? (firstArgmax st.scores_) := by
  unfold selectBest
  rw [if_pos]
  · exact ⟨rfl, rfl, rfl⟩
  · simpa [List.length_eq_zero] using h

/-- Unfolding a successful `fit` call: the resolved validation data was
present, the loop succeeded, and the returned state is the selection step
applied to the loop's final state. -/
theorem fit_ok_destruct {ext : Externals ρ lab ω μ} {cfg : Config lab}
    {st st2 : ClassifierState ω μ} {X : List ρ} {y : List lab}
    {xv : Option (List ρ)} {yv : Option (List lab)}
    (h : Classifier.fit ext cfg st X y xv yv = .ok st2) :
    ∃ st3 Xv yv2, (resolveData ext cfg X y xv yv).2 = (some Xv, some yv2) ∧
      fitLoop ext cfg (resolveData ext cfg X y xv yv).1.1 (resolveData ext cfg X y xv yv).1.2
        Xv yv2 cfg.nb_iter st = .ok st3 ∧
      st2 = selectBest st3 := by
  simp only [Classifier.fit] at h
  split at h
  · rename_i Xv yv2 h1 h2
    cases hloop : fitLoop ext cfg (resolveData ext cfg X y xv yv).1.1
        (resolveData ext cfg X y xv yv).1.2 Xv yv2 cfg.nb_iter st with
    | error e => rw [hloop] at h; exact Except.noConfusion h
    | ok st3 =>
      rw [hloop] at h
      injection h with h
      exact ⟨st3, Xv, yv2, by rw [← h1, ← h2], hloop, h.symm⟩
  · exact Except.noConfusion h

/-! ### Lemmas about `firstArgmax` -/

/-- A non-empty list of rationals attains its maximum. -/
theorem exists_max_mem (l : List ℚ) (h : l ≠ []) : ∃ x, x ∈ l ∧ ∀ z ∈ l, z ≤ x := by
  induction l with
  | nil => exact absurd rfl h
  | cons a t ih =>
    cases t with
    | nil => exact ⟨a, by simp⟩
    | cons b t2 =>
      obtain ⟨x, hx, hmax⟩ := ih (by simp)
      rcases le_total a x with hax | hxa
      · refine ⟨x, List.mem_cons_of_mem a hx, ?_⟩
        intro z hz
        rcases List.mem_cons.mp hz with rfl | hz2
        · exact hax
        · exact hmax z hz2
      · refine ⟨a, List.mem_cons_self a _, ?_⟩
        intro z hz
        rcases List.mem_cons.mp hz with rfl | hz2
        · exact le_refl z
        · exact le_trans (hmax z hz2) hxa

/-- On a non-empty list `firstArgmax` is a valid index. -/
theorem firstArgmax_lt_length {l : List ℚ} (h : l ≠ []) : firstArgmax l < l.length := by
  obtain ⟨x, hx, hmax⟩ := exists_max_mem l h
  refine List.findIdx_lt_length_of_exists ⟨x, hx, ?_⟩
  simp only [List.all_eq_true, decide_eq_true_eq]
  exact hmax

/-- The entry at `firstArgmax` dominates every entry of the list. -/
theorem firstArgmax_le {l : List ℚ} (hlt : firstArgmax l < l.length)
    {j : Nat} (hj : j < l.length) : l.get ⟨j, hj⟩ ≤ l.get ⟨firstArgmax l, hlt⟩ := by
  have hp : (fun x => l.all (fun z => decide (z ≤ x))) (l.get ⟨firstArgmax l, hlt⟩) = true := by
    simpa [firstArgmax, List.get_eq_getElem] using
      List.findIdx_getElem (p := fun x => l.all (fun z => decide (z ≤ x))) (w := hlt)
  simp only [List.all_eq_true, decide_eq_true_eq] at hp
  exact hp _ (l.get_mem j hj)

/-- Entries strictly before `firstArgmax` are strictly below the maximum:
the selected index is the first index attaining the maximum. -/
theorem firstArgmax_first {l : List ℚ} (hlt : firstArgmax l < l.length)
    {j : Nat} (hj : j < firstArgmax l) :
    l.get ⟨j, lt_trans hj hlt⟩ < l.get ⟨firstArgmax l, hlt⟩ := by
  have hfalse : (fun x => l.all (fun z => decide (z ≤ x))) (l.get ⟨j, lt_trans hj hlt⟩) = false := by
    simpa [firstArgmax, List.get_eq_getElem] using
      List.not_of_lt_findIdx (p := fun x => l.all (fun z => decide (z ≤ x))) (i := j) hj
  simp only [List.all_eq_false, decide_eq_true_eq] at hfalse
  obtain ⟨z, hz, hzgt⟩ := hfalse
  have hzle : z ≤ l.get ⟨firstArgmax l, hlt⟩ := by
    obtain ⟨k, hkz⟩ := List.mem_iff_get.mp hz
    exact hkz ▸ firstArgmax_le hlt k.isLt
  exact lt_of_lt_of_le (not_le.mp hzgt) hzle

/-- A caught training failure: with `eval` succeeding and training raising,
the iteration returns the state unchanged except for the advanced walker. -/
theorem fitIter_train_fail {ext : Externals ρ lab ω μ} {cfg : Config lab}
    {Xt : List ρ} {yt : List lab} {Xv : List ρ} {yv : List lab}
    {st : ClassifierState ω μ} {clf : μ}
    (hev : ext.evalCode (ext.renderTerminals (ext.walk st.walker)) = some clf)
    (htr : ext.trainModel clf Xt yt = none) :
    fitIter ext cfg Xt yt Xv yv st = .ok { st with walker := ext.walk st.walker } := by
  simp only [fitIter, hev, htr]

/-- A propagating construction failure: with `eval` raising, the iteration
returns the construction error carrying the rendered code. -/
theorem fitIter_eval_fail {ext : Externals ρ lab ω μ} {cfg : Config lab}
    {Xt : List ρ} {yt : List lab} {Xv : List ρ} {yv : List lab}
    {st : ClassifierState ω μ}
    (hev : ext.evalCode (ext.renderTerminals (ext.walk st.walker)) = none) :
    fitIter ext cfg Xt yt Xv yv st
      = .error (.constructionError (ext.renderTerminals (ext.walk st.walker))) := by
  simp only [fitIter, hev]

/-! ### The claims -/

/-- C1, amended: in every iteration of the search loop, a failure raised
while TRAINING the candidate is discarded silently — the iteration appends
nothing to `codes_`/`estimators_`/`scores_` (only the walker advances) and
the loop proceeds with the remaining iterations; a failure raised while
CONSTRUCTING the candidate from the rendered code, however, is not caught:
it aborts the loop at once and is surfaced to the caller of `fit` as an
error carrying the rendered code. -/
theorem C1_failure_handling (ext : Externals ρ lab ω μ) (cfg : Config lab)
    (Xt : List ρ) (yt : List lab) (Xv : List ρ) (yv : List lab)
    (st : ClassifierState ω μ) (n : Nat) :
    (∀ clf, ext.evalCode (ext.renderTerminals (ext.walk st.walker)) = some clf →
        ext.trainModel clf Xt yt = none →
        fitLoop ext cfg Xt yt Xv yv (n + 1) st
          = fitLoop ext cfg Xt yt Xv yv n { st with walker := ext.walk st.walker }) ∧
    (ext.evalCode (ext.renderTerminals (ext.walk st.walker)) = none →
        fitLoop ext cfg Xt yt Xv yv (n + 1) st
          = .error (.constructionError (ext.renderTerminals (ext.walk st.walker)))) := by
  constructor
  · intro clf hev htr
    simp only [fitLoop, fitIter_train_fail hev htr]
  · intro hev
    simp only [fitLoop, fitIter_eval_fail hev]

/-- C1 witness: both branches evaluated on concrete collaborators — a
training failure skips the iteration and continues; an `eval` failure
surfaces as a construction error. -/
theorem C1_failure_handling_witness :
    fitLoop extFail cfgW [1] [2] [3] [4] 2 (initState 0)
      = fitLoop extFail cfgW [1] [2] [3] [4] 1 { initState 0 with walker := extFail.walk 0 } ∧
    fitLoop extCrash cfgW [1] [2] [3] [4] 2 (initState 0)
      = .error (.constructionError (extCrash.renderTerminals (extCrash.walk 0))) :=
  ⟨(C1_failure_handling extFail cfgW [1] [2] [3] [4] (initState 0) 1).1 1 rfl rfl,
   (C1_failure_handling extCrash cfgW [1] [2] [3] [4] (initState 0) 1).2 rfl⟩

/-- C1 counterexample: the claim as stated is false — a failure while
constructing the candidate from the rendered code is NOT discarded silently.
With collaborators whose `eval` raises on every code, a `fit` call with two
iterations aborts inside the first iteration and surfaces the failure to the
caller as an error, instead of skipping both iterations and returning. -/
theorem C1_counterexample :
    Classifier.fit extCrash { cfgW with nb_iter := 2 } (initState 0) [1] [2]
        (some [3]) (some [4])
      = .error (.constructionError "a") := by
  rfl

/-- C2: `Classifier.fit` aborts with the precondition (assertion) failure
if and only if the resolved validation data is unavailable — one of the two
resolved validation components is `None`.  When both resolve, `fit` never
raises the precondition failure (any error it can still return is a
propagated construction error, a different failure). -/
theorem C2_precondition (ext : Externals ρ lab ω μ) (cfg : Config lab)
    (st : ClassifierState ω μ) (X : List ρ) (y : List lab)
    (xv : Option (List ρ)) (yv : Option (List lab)) :
    Classifier.fit ext cfg st X y xv yv = .error .assertionError ↔
      ((resolveData ext cfg X y xv yv).2.1 = none ∨
        (resolveData ext cfg X y xv yv).2.2 = none) := by
  constructor
  · intro h
    by_contra hno
    push_neg at hno
    obtain ⟨h1, h2⟩ := hno
    obtain ⟨Xv, hXv⟩ := Option.ne_none_iff_exists.mp h1
    obtain ⟨Yv, hYv⟩ := Option.ne_none_iff_exists.mp h2
    simp only [Classifier.fit, ← hXv, ← hYv] at h
    cases hloop : fitLoop ext cfg (resolveData ext cfg X y xv yv).1.1
        (resolveData ext cfg X y xv yv).1.2 Xv Yv cfg.nb_iter st with
    | error e =>
      rw [hloop] at h
      injection h with h
      obtain ⟨c, hc⟩ := fitLoop_error_shape hloop
      exact FitError.noConfusion (hc ▸ h)
    | ok st3 => rw [hloop] at h; exact Except.noConfusion h
  · intro h
    simp only [Classifier.fit]
    rcases h with h | h
    · rw [h]
    · cases hx : (resolveData ext cfg X y xv yv).2.1 with
      | none => rw [h]
      | some Xv => rw [h]

/-- C3: after `Classifier.fit` returns with a non-empty `scores_`, the best
fields are set from the entries of `scores_`, `estimators_` and `codes_` at
the common index `firstArgmax scores_` (a valid index into all three lists):
`best_score_` is the maximum value of `scores_` (it dominates every entry),
and every entry strictly before the selected index is strictly smaller, so
the first entry among ties is selected. -/
theorem C3_best_selection (ext : Externals ρ lab ω μ) (cfg : Config lab)
    (st st2 : ClassifierState ω μ) (X : List ρ) (y : List lab)
    (xv : Option (List ρ)) (yv : Option (List lab))
    (hwf : wellFormed st)
    (hfit : Classifier.fit ext cfg st X y xv yv = .ok st2)
    (hne : st2.scores_ ≠ []) :
    ∃ hi : firstArgmax st2.scores_ < st2.scores_.length,
      firstArgmax st2.scores_ < st2.estimators_.length ∧
      firstArgmax st2.scores_ < st2.codes_.length ∧
      st2.best_score_ = some (st2.scores_.get ⟨firstArgmax st2.scores_, hi⟩) ∧
      st2.best_estimator_ = st2.estimators_.get? (firstArgmax st2.scores_) ∧
      st2.best_estimator_code_ = st2.codes_.get? (firstArgmax st2.scores_) ∧
      (∀ j (hj : j < st2.scores_.length),
        st2.scores_.get ⟨j, hj⟩ ≤ st2.scores_.get ⟨firstArgmax st2.scores_, hi⟩) ∧
      (∀ j (hj : j < firstArgmax st2.scores_),
        st2.scores_.get ⟨j, lt_trans hj hi⟩
          < st2.scores_.get ⟨firstArgmax st2.scores_, hi⟩) := by
  obtain ⟨st3, Xv, yv2, hres, hloop, hsel⟩ := fit_ok_destruct hfit
  obtain ⟨⟨tc, tm, ts, hc, hm, hs, hlc, hlm⟩, hb1, hb2, hb3⟩ := fitLoop_ok_extend hloop
  obtain ⟨hsc, hse, hss, hsw⟩ := selectBest_lists st3
  have h2c : st2.codes_ = st3.codes_ := by rw [hsel]; exact hsc
  have h2e : st2.estimators_ = st3.estimators_ := by rw [hsel]; exact hse
  have h2s : st2.scores_ = st3.scores_ := by rw [hsel]; exact hss
  have hne3 : st3.scores_ ≠ [] := h2s ▸ hne
  have hlen_c : st2.codes_.length = st2.scores_.length := by
    rw [h2c, h2s, hc, hs]
    simp [hwf.1, hlc]
  have hlen_e : st2.estimators_.length = st2.scores_.length := by
    rw [h2e, h2s, hm, hs]
    simp [hwf.2, hlm]
  have hi : firstArgmax st2.scores_ < st2.scores_.length := firstArgmax_lt_length hne
  obtain ⟨hb_s, hb_e, hb_c⟩ := selectBest_of_ne hne3
  refine ⟨hi, ?_, ?_, ?_, ?_, ?_, ?_, ?_⟩
  · rw [hlen_e]; exact hi
  · rw [hlen_c]; exact hi
  · calc st2.best_score_
        = st3.scores_.get? (firstArgmax st3.scores_) := by rw [hsel, hb_s]
      _ = st2.scores_.get? (firstArgmax st2.scores_) := by rw [h2s]
      _ = some (st2.scores_.get ⟨firstArgmax st2.scores_, hi⟩) := List.get?_eq_get hi
  · calc st2.best_estimator_
        = st3.estimators_.get? (firstArgmax st3.scores_) := by rw [hsel, hb_e]
      _ = st2.estimators_.get? (firstArgmax st2.scores_) := by rw [h2s, h2e]
  · calc st2.best_estimator_code_
        = st3.codes_.get? (firstArgmax st3.scores_) := by rw [hsel, hb_c]
      _ = st2.codes_.get? (firstArgmax st2.scores_) := by rw [h2s, h2c]
  · intro j hj
    exact firstArgmax_le hi hj
  · intro j hj
    exact firstArgmax_first hi hj

/-- The configuration of the single-iteration witness runs. -/
def cfg9 : Config Nat := { cfgW with nb_iter := 1 }

/-- The state produced by the three-iteration witness run of `fit` on a
fresh instance (`extW`, `cfgW`, explicit validation data `[9]`/`[9]`). -/
def stC3 : ClassifierState Nat Nat :=
  { walker := 3
    codes_ := ["a", "aa", "aaa"]
    estimators_ := [1, 2, 3]
    scores_ := [((1 : Nat) : ℚ), ((2 : Nat) : ℚ), ((3 : Nat) : ℚ)]
    best_score_ := some ((3 : Nat) : ℚ)
    best_estimator_ := some 3
    best_estimator_code_ := some "aaa" }

/-- C3 witness: the selection property evaluated on a concrete three
iteration run whose scores are `[1, 2, 3]`. -/
theorem C3_best_selection_witness :
    ∃ hi : firstArgmax stC3.scores_ < stC3.scores_.length,
      firstArgmax stC3.scores_ < stC3.estimators_.length ∧
      firstArgmax stC3.scores_ < stC3.codes_.length ∧
      stC3.best_score_ = some (stC3.scores_.get ⟨firstArgmax stC3.scores_, hi⟩) ∧
      stC3.best_estimator_ = stC3.estimators_.get? (firstArgmax stC3.scores_) ∧
      stC3.best_estimator_code_ = stC3.codes_.get? (firstArgmax stC3.scores_) ∧
      (∀ j (hj : j < stC3.scores_.length),
        stC3.scores_.get ⟨j, hj⟩ ≤ stC3.scores_.get ⟨firstArgmax stC3.scores_, hi⟩) ∧
      (∀ j (hj : j < firstArgmax stC3.scores_),
        stC3.scores_.get ⟨j, lt_trans hj hi⟩
          < stC3.scores_.get ⟨firstArgmax stC3.scores_, hi⟩) :=
  C3_best_selection extW cfgW (initState 0) stC3 [1, 2, 3] [4, 5, 6]
    (some [9]) (some [9]) ⟨rfl, rfl⟩ rfl (by decide)

/-- The candidate (rendered code, score) one iteration contributes when it
starts from walker state `w` — empty when training raises.  This is a
function of the walker state and the resolved data only. -/
def newCands (ext : Externals ρ lab ω μ) (cfg : Config lab)
    (X_train : List ρ) (y_train : List lab) (X_val : List ρ) (y_val : List lab)
    (w : ω) : List String × List ℚ :=
  match ext.evalCode (ext.renderTerminals (ext.walk w)) with
  | none => ([], [])
  | some clf =>
    match ext.trainModel clf X_train y_train with
    | none => ([], [])
    | some clf2 =>
      ([ext.renderTerminals (ext.walk w)], [cfg.score y_val (ext.predict clf2 X_val)])

/-- What a successful iteration appends to `codes_` and `scores_` is exactly
`newCands` of the starting walker state. -/
theorem fitIter_ok_newCands {ext : Externals ρ lab ω μ} {cfg : Config lab}
    {Xt : List ρ} {yt : List lab} {Xv : List ρ} {yv : List lab}
    {st s : ClassifierState ω μ}
    (h : fitIter ext cfg Xt yt Xv yv st = .ok s) :
    s.codes_.drop st.codes_.length = (newCands ext cfg Xt yt Xv yv st.walker).1 ∧
    s.scores_.drop st.scores_.length = (newCands ext cfg Xt yt Xv yv st.walker).2 := by
  cases hev : ext.evalCode (ext.renderTerminals (ext.walk st.walker)) with
  | none => rw [fitIter_eval_fail hev] at h; exact Except.noConfusion h
  | some clf =>
    cases htr : ext.trainModel clf Xt yt with
    | none =>
      rw [fitIter_train_fail hev htr] at h
      injection h with h
      subst h
      simp [newCands, hev, htr]
    | some clf2 =>
      simp only [fitIter, hev, htr] at h
      injection h with h
      subst h
      simp [newCands, hev, htr, List.drop_left]

/-- Unfolding a successful single-iteration `fit` call. -/
theorem fit_one_destruct {ext : Externals ρ lab ω μ} {cfg : Config lab}
    {st st2 : ClassifierState ω μ} {X : List ρ} {y : List lab}
    {xv : Option (List ρ)} {yv : Option (List lab)}
    (hiter : cfg.nb_iter = 1)
    (h : Classifier.fit ext cfg st X y xv yv = .ok st2) :
    ∃ s Xv yv2, (resolveData ext cfg X y xv yv).2 = (some Xv, some yv2) ∧
      fitIter ext cfg (resolveData ext cfg X y xv yv).1.1 (resolveData ext cfg X y xv yv).1.2
        Xv yv2 st = .ok s ∧
      st2 = selectBest s := by
  obtain ⟨st3, Xv, yv2, hres, hloop, hsel⟩ := fit_ok_destruct h
  rw [hiter] at hloop
  cases hit : fitIter ext cfg (resolveData ext cfg X y xv yv).1.1
      (resolveData ext cfg X y xv yv).1.2 Xv yv2 st with
  | error e =>
    rw [show (1 : Nat) = 0 + 1 from rfl] at hloop
    unfold fitLoop at hloop
    rw [hit] at hloop
    exact Except.noConfusion hloop
  | ok s =>
    rw [show (1 : Nat) = 0 + 1 from rfl] at hloop
    unfold fitLoop at hloop
    rw [hit] at hloop
    unfold fitLoop at hloop
    injection hloop with hloop
    exact ⟨s, Xv, yv2, hres, hit, by rw [hsel, hloop]⟩

/-- C9: determinism of a single-iteration run — two `fit` calls with the
same collaborators, configuration, data and walker start state (the walker's
randomness being part of the deterministically threaded walker state) append
the same rendered code and the same score to their candidate lists, whatever
candidate history the two instances carry. -/
theorem C9_determinism (ext : Externals ρ lab ω μ) (cfg : Config lab)
    (st1 st2 st1' st2' : ClassifierState ω μ) (X : List ρ) (y : List lab)
    (xv : Option (List ρ)) (yv : Option (List lab))
    (hiter : cfg.nb_iter = 1)
    (hw : st1.walker = st2.walker)
    (h1 : Classifier.fit ext cfg st1 X y xv yv = .ok st1')
    (h2 : Classifier.fit ext cfg st2 X y xv yv = .ok st2') :
    st1'.codes_.drop st1.codes_.length = st2'.codes_.drop st2.codes_.length ∧
    st1'.scores_.drop st1.scores_.length = st2'.scores_.drop st2.scores_.length := by
  obtain ⟨s1, Xv1, yv1, hres1, hit1, hsel1⟩ := fit_one_destruct hiter h1
  obtain ⟨s2, Xv2, yv2, hres2, hit2, hsel2⟩ := fit_one_destruct hiter h2
  have hXv : Xv1 = Xv2 := by
    have := hres1.symm.trans hres2
    injection this with hx hy
    injection hx
  have hYv : yv1 = yv2 := by
    have := hres1.symm.trans hres2
    injection this with hx hy
    injection hy
  obtain ⟨hc1, hs1⟩ := fitIter_ok_newCands hit1
  obtain ⟨hc2, hs2⟩ := fitIter_ok_newCands hit2
  obtain ⟨hsc1, hse1, hss1, _⟩ := selectBest_lists s1
  obtain ⟨hsc2, hse2, hss2, _⟩ := selectBest_lists s2
  constructor
  · rw [hsel1, hsel2, hsc1, hsc2, hc1, hc2, hw, hXv, hYv]
  · rw [hsel1, hsel2, hss1, hss2, hs1, hs2, hw, hXv, hYv]

/-- The second witness instance: a `Classifier` state carrying one candidate
from an earlier `fit` call, with the walker back at the start state `0`. -/
def stPrev : ClassifierState Nat Nat :=
  { walker := 0
    codes_ := ["x"]
    estimators_ := [9]
    scores_ := [((9 : Nat) : ℚ)]
    best_score_ := some ((9 : Nat) : ℚ)
    best_estimator_ := some 9
    best_estimator_code_ := some "x" }

/-- Result of the single-iteration witness run from a fresh instance. -/
def stRun1 : ClassifierState Nat Nat :=
  { walker := 1
    codes_ := ["a"]
    estimators_ := [1]
    scores_ := [((1 : Nat) : ℚ)]
    best_score_ := some ((1 : Nat) : ℚ)
    best_estimator_ := some 1
    best_estimator_code_ := some "a" }

/-- Result of the single-iteration witness run from `stPrev`: the new
candidate is appended after the old one and the best selection ranges over
both (the old score 9 wins). -/
def stRun2 : ClassifierState Nat Nat :=
  { walker := 1
    codes_ := ["x", "a"]
    estimators_ := [9, 1]
    scores_ := [((9 : Nat) : ℚ), ((1 : Nat) : ℚ)]
    best_score_ := some ((9 : Nat) : ℚ)
    best_estimator_ := some 9
    best_estimator_code_ := some "x" }

/-- C9 witness: the two concrete single-iteration runs (one from a fresh
instance, one from an instance with candidate history but the same walker
state) append the same code `"a"` and the same score. -/
theorem C9_determinism_witness :
    stRun1.codes_.drop (initState 0 : ClassifierState Nat Nat).codes_.length
        = stRun2.codes_.drop stPrev.codes_.length ∧
    stRun1.scores_.drop (initState 0 : ClassifierState Nat Nat).scores_.length
        = stRun2.scores_.drop stPrev.scores_.length :=
  C9_determinism extW cfg9 (initState 0) stPrev stRun1 stRun2 [1, 2] [3, 4]
    (some [5]) (some [6]) rfl rfl rfl rfl

/-- C10: the candidate lists start equal-length and empty on a fresh
instance, a `fit` call never resets them — it only appends (the prior lists
are a prefix of the new ones) — equal length is preserved, and the best
selection performed at the end of the call is computed from the FULL
accumulated lists (at index `firstArgmax` of the whole of `scores_`), so it
ranges over the candidates of every `fit` call made so far. -/
theorem C10_accumulation (ext : Externals ρ lab ω μ) (cfg : Config lab)
    (st st2 : ClassifierState ω μ) (X : List ρ) (y : List lab)
    (xv : Option (List ρ)) (yv : Option (List lab)) (w : ω)
    (hfit : Classifier.fit ext cfg st X y xv yv = .ok st2) :
    (∃ tc tm ts, st2.codes_ = st.codes_ ++ tc ∧ st2.estimators_ = st.estimators_ ++ tm ∧
      st2.scores_ = st.scores_ ++ ts) ∧
    (wellFormed st → wellFormed st2) ∧
    wellFormed (initState (μ := μ) w) ∧
    (st2.scores_ ≠ [] →
      st2.best_score_ = st2.scores_.get? (firstArgmax st2.scores_) ∧
      st2.best_estimator_ = st2.estimators_.get? (firstArgmax st2.scores_) ∧
      st2.best_estimator_code_ = st2.codes_.get? (firstArgmax st2.scores_)) := by
  obtain ⟨st3, Xv, yv2, hres, hloop, hsel⟩ := fit_ok_destruct hfit
  obtain ⟨⟨tc, tm, ts, hc, hm, hs, hlc, hlm⟩, hb1, hb2, hb3⟩ := fitLoop_ok_extend hloop
  obtain ⟨hsc, hse, hss, hsw⟩ := selectBest_lists st3
  have h2c : st2.codes_ = st3.codes_ := by rw [hsel]; exact hsc
  have h2e : st2.estimators_ = st3.estimators_ := by rw [hsel]; exact hse
  have h2s : st2.scores_ = st3.scores_ := by rw [hsel]; exact hss
  refine ⟨⟨tc, tm, ts, by rw [h2c, hc], by rw [h2e, hm], by rw [h2s, hs]⟩, ?_, ⟨rfl, rfl⟩, ?_⟩
  · intro hwf
    constructor
    · rw [h2c, h2s, hc, hs]
      simp [hwf.1, hlc]
    · rw [h2e, h2s, hm, hs]
      simp [hwf.2, hlm]
  · intro hne
    have hne3 : st3.scores_ ≠ [] := h2s ▸ hne
    obtain ⟨hb_s, hb_e, hb_c⟩ := selectBest_of_ne hne3
    refine ⟨?_, ?_, ?_⟩
    · rw [hsel, hb_s, hss]
    · rw [hsel, hb_e, hss, hse]
    · rw [hsel, hb_c, hss, hsc]

/-- C10 witness: the accumulation property evaluated on the concrete
single-iteration run from `stPrev` (one prior candidate): the run appends
one candidate and the final best selection picks the PRIOR candidate, whose
score 9 beats the new score 1. -/
theorem C10_accumulation_witness :
    (∃ tc tm ts, stRun2.codes_ = stPrev.codes_ ++ tc ∧
      stRun2.estimators_ = stPrev.estimators_ ++ tm ∧
      stRun2.scores_ = stPrev.scores_ ++ ts) ∧
    (wellFormed stPrev → wellFormed stRun2) ∧
    wellFormed (initState (μ := Nat) 0) ∧
    (stRun2.scores_ ≠ [] →
      stRun2.best_score_ = stRun2.scores_.get? (firstArgmax stRun2.scores_) ∧
      stRun2.best_estimator_ = stRun2.estimators_.get? (firstArgmax stRun2.scores_) ∧
      stRun2.best_estimator_code_ = stRun2.codes_.get? (firstArgmax stRun2.scores_)) :=
  C10_accumulation extW cfg9 stPrev stRun2 [1, 2] [3, 4] (some [5]) (some [6]) 0 rfl

/-- The loop reads the configuration only through its scoring function. -/
theorem fitLoop_cfg_congr {ext : Externals ρ lab ω μ} {cfg1 cfg2 : Config lab}
    (hsc : cfg1.score = cfg2.score)
    (Xt : List ρ) (yt : List lab) (Xv : List ρ) (yv : List lab)
    (n : Nat) (st : ClassifierState ω μ) :
    fitLoop ext cfg1 Xt yt Xv yv n st = fitLoop ext cfg2 Xt yt Xv yv n st := by
  induction n generalizing st with
  | zero => rfl
  | succ n ih =>
    have hit : fitIter ext cfg1 Xt yt Xv yv st = fitIter ext cfg2 Xt yt Xv yv st := by
      unfold fitIter
      rw [hsc]
    simp only [fitLoop, hit]
    cases fitIter ext cfg2 Xt yt Xv yv st with
    | error e => rfl
    | ok s => exact ih s

/-- C7: when both `X_valid` and `y_valid` are supplied, they are used as the
validation set as-is and `X`, `y` pass through unchanged (unshuffled,
unsplit) as the training set; the whole `fit` call is independent of the
`valid_ratio` and `random_state` settings. -/
theorem C7_explicit_validation (ext : Externals ρ lab ω μ) (cfg : Config lab)
    (st : ClassifierState ω μ) (X : List ρ) (y : List lab)
    (Xv : List ρ) (Yv : List lab) (r1 r2 : ℚ) (s1 s2 : Nat) :
    resolveData ext { cfg with valid_ratio := r1, random_state := s1 } X y
        (some Xv) (some Yv) = ((X, y), (some Xv, some Yv)) ∧
    Classifier.fit ext { cfg with valid_ratio := r1, random_state := s1 } st X y
        (some Xv) (some Yv)
      = Classifier.fit ext { cfg with valid_ratio := r2, random_state := s2 } st X y
        (some Xv) (some Yv) := by
  refine ⟨rfl, ?_⟩
  have hsc : ({ cfg with valid_ratio := r1, random_state := s1 } : Config lab).score
      = ({ cfg with valid_ratio := r2, random_state := s2 } : Config lab).score := rfl
  have hcongr := @fitLoop_cfg_congr ρ lab ω μ ext _ _ hsc X y Xv Yv cfg.nb_iter st
  simp only [Classifier.fit, resolveData]
  rw [hcongr]

/-- C8: with no explicit validation data and `valid_ratio = 0`, the data
resolution returns `X` and `y` themselves, unshuffled, as both the training
set and the validation set. -/
theorem C8_zero_ratio (ext : Externals ρ lab ω μ) (cfg : Config lab)
    (X : List ρ) (y : List lab) (h : cfg.valid_ratio = 0) :
    resolveData ext cfg X y none none = ((X, y), (some X, some y)) := by
  simp only [resolveData]
  rw [if_neg]
  rw [h]
  exact lt_irrefl 0

/-- C8 witness: the zero-ratio resolution evaluated on concrete data. -/
theorem C8_zero_ratio_witness :
    resolveData extW cfgW [1, 2] [3, 4] none none
      = (([1, 2], [3, 4]), (some [1, 2], some [3, 4])) :=
  C8_zero_ratio extW cfgW [1, 2] [3, 4] rfl

/-- A nonnegative slice endpoint is used as-is. -/
theorem pySliceIdx_of_nonneg {n : Nat} {m : Int} (h : 0 ≤ m) :
    pySliceIdx n m = m.toNat := by
  unfold pySliceIdx
  rw [if_neg (not_lt.mpr h)]

/-- `Rat.floor` agrees with the floor of the `FloorRing` instance. -/
theorem intFloor_eq_ratFloor (q : ℚ) : ⌊q⌋ = q.floor := by
  rw [Rat.floor_def, Rat.floor_def']

/-- On a nonnegative rational, Python's `int()` is the floor. -/
theorem pyInt_of_nonneg {q : ℚ} (h : 0 ≤ q) : pyInt q = ⌊q⌋ := by
  unfold pyInt
  rw [if_neg (not_lt.mpr h), intFloor_eq_ratFloor]

/-- C4, amended for `valid_ratio ≤ 1`: with no explicit validation data and
`0 < valid_ratio = r ≤ 1`, the data is first shuffled under `random_state`,
the validation suffix has exactly `⌊r * total_rows⌋` rows, the training
prefix has `total_rows - ⌊r * total_rows⌋` rows, and prefix and suffix
partition the shuffled input without overlap or omission.  (For `r > 1` the
claim fails: Python's negative-slice arithmetic takes over, see the
counterexample.)  The shuffle-length hypotheses record that
`sklearn.utils.shuffle` returns permutations of its inputs. -/
theorem C4_ratio_split (ext : Externals ρ lab ω μ) (cfg : Config lab)
    (X : List ρ) (y : List lab)
    (h0 : 0 < cfg.valid_ratio) (h1 : cfg.valid_ratio ≤ 1)
    (hlx : (ext.shuffle cfg.random_state X y).1.length = X.length)
    (hly : (ext.shuffle cfg.random_state X y).2.length = X.length) :
    ∃ Xs ys nb v,
      ext.shuffle cfg.random_state X y = (Xs, ys) ∧
      v = (⌊(X.length : ℚ) * cfg.valid_ratio⌋).toNat ∧
      nb = X.length - v ∧
      resolveData ext cfg X y none none
        = ((Xs.take nb, ys.take nb), (some (Xs.drop nb), some (ys.drop nb))) ∧
      (Xs.drop nb).length = v ∧
      (Xs.take nb).length = X.length - v ∧
      Xs.take nb ++ Xs.drop nb = Xs ∧
      ys.take nb ++ ys.drop nb = ys := by
  have hprod : (0 : ℚ) ≤ (X.length : ℚ) * cfg.valid_ratio :=
    mul_nonneg (Nat.cast_nonneg _) (le_of_lt h0)
  have hfl0 : 0 ≤ ⌊(X.length : ℚ) * cfg.valid_ratio⌋ := Int.floor_nonneg.mpr hprod
  have hfln : ⌊(X.length : ℚ) * cfg.valid_ratio⌋ ≤ (X.length : Int) := by
    have hle : (X.length : ℚ) * cfg.valid_ratio ≤ (X.length : ℚ) :=
      mul_le_of_le_one_right (Nat.cast_nonneg _) h1
    calc ⌊(X.length : ℚ) * cfg.valid_ratio⌋ ≤ ⌊((X.length : ℚ))⌋ := Int.floor_le_floor hle
      _ = (X.length : Int) := Int.floor_natCast _
  have hpy : pyInt (((ext.shuffle cfg.random_state X y).1.length : ℚ) * cfg.valid_ratio)
      = ⌊(X.length : ℚ) * cfg.valid_ratio⌋ := by
    rw [hlx]
    exact pyInt_of_nonneg hprod
  have hidx1 : pySliceIdx (ext.shuffle cfg.random_state X y).1.length
      (((ext.shuffle cfg.random_state X y).1.length : Int)
        - pyInt (((ext.shuffle cfg.random_state X y).1.length : ℚ) * cfg.valid_ratio))
      = X.length - (⌊(X.length : ℚ) * cfg.valid_ratio⌋).toNat := by
    rw [hpy, hlx, pySliceIdx_of_nonneg (by omega)]
    omega
  have hidx2 : pySliceIdx (ext.shuffle cfg.random_state X y).2.length
      (((ext.shuffle cfg.random_state X y).1.length : Int)
        - pyInt (((ext.shuffle cfg.random_state X y).1.length : ℚ) * cfg.valid_ratio))
      = X.length - (⌊(X.length : ℚ) * cfg.valid_ratio⌋).toNat := by
    rw [hpy, hlx, hly, pySliceIdx_of_nonneg (by omega)]
    omega
  refine ⟨(ext.shuffle cfg.random_state X y).1, (ext.shuffle cfg.random_state X y).2,
    X.length - (⌊(X.length : ℚ) * cfg.valid_ratio⌋).toNat,
    (⌊(X.length : ℚ) * cfg.valid_ratio⌋).toNat,
    rfl, rfl, rfl, ?_, ?_, ?_, List.take_append_drop _ _, List.take_append_drop _ _⟩
  · simp only [resolveData, if_pos h0]
    rw [hidx1, hidx2]
  · rw [List.length_drop]
    omega
  · rw [List.length_take]
    omega

/-- The configuration of the half-split witness run. -/
def cfgHalf : Config Nat := { cfgW with valid_ratio := mkRat 1 2 }

/-- C4 witness: the ratio split evaluated with `valid_ratio = 1/2` on five
rows — a three-row training prefix and a two-row validation suffix. -/
theorem C4_ratio_split_witness :
    ∃ Xs ys nb v,
      extW.shuffle cfgHalf.random_state [1, 2, 3, 4, 5] [6, 7, 8, 9, 10] = (Xs, ys) ∧
      v = (⌊(([1, 2, 3, 4, 5] : List Nat).length : ℚ) * cfgHalf.valid_ratio⌋).toNat ∧
      nb = ([1, 2, 3, 4, 5] : List Nat).length - v ∧
      resolveData extW cfgHalf [1, 2, 3, 4, 5] [6, 7, 8, 9, 10] none none
        = ((Xs.take nb, ys.take nb), (some (Xs.drop nb), some (ys.drop nb))) ∧
      (Xs.drop nb).length = v ∧
      (Xs.take nb).length = ([1, 2, 3, 4, 5] : List Nat).length - v ∧
      Xs.take nb ++ Xs.drop nb = Xs ∧
      ys.take nb ++ ys.drop nb = ys :=
  C4_ratio_split extW cfgHalf [1, 2, 3, 4, 5] [6, 7, 8, 9, 10]
    (by decide) (by decide) rfl rfl

/-- The configuration with a ratio above one, for the counterexample. -/
def cfg2x : Config Nat := { cfgW with valid_ratio := 2 }

/-- C4 counterexample: the claim as stated fails for `valid_ratio = 2` on a
one-row dataset — the resolved validation suffix has 1 row while
`⌊r * total_rows⌋ = 2`; Python's slice arithmetic with the negative
`nb_train = -1` yields an empty training prefix and the whole (shuffled)
input as the suffix. -/
theorem C4_counterexample :
    Option.map List.length (resolveData extW cfg2x [5] [7] none none).2.1 = some 1 ∧
    (⌊(([5] : List Nat).length : ℚ) * cfg2x.valid_ratio⌋).toNat = 2 := by
  constructor
  · with_unfolding_all rfl
  · rw [intFloor_eq_ratFloor]
    with_unfolding_all decide

/-- C5, amended: the validation set a candidate is scored against is always
non-`None`, but it can be EMPTY.  It is non-empty when explicit non-empty
validation data is supplied, and, with no explicit validation data, when
either `valid_ratio ≤ 0` (with `X` non-empty) or the ratio split is not
degenerate (`1 ≤ ⌊valid_ratio * |X|⌋`); in the remaining ratio case
(`0 < valid_ratio` with `⌊valid_ratio * |X|⌋ = 0`, e.g. five rows at ratio
1/10) candidates are scored against an empty validation set — see the
counterexample. -/
theorem C5_validation_nonempty (ext : Externals ρ lab ω μ) (cfg : Config lab)
    (X : List ρ) (y : List lab) (xv : Option (List ρ)) (yv : Option (List lab))
    (H : (∃ Xv0 Yv0, xv = some Xv0 ∧ yv = some Yv0 ∧ Xv0 ≠ []) ∨
      (xv = none ∧ yv = none ∧
        (ext.shuffle cfg.random_state X y).1.length = X.length ∧
        ((cfg.valid_ratio ≤ 0 ∧ X ≠ []) ∨
          1 ≤ ⌊(X.length : ℚ) * cfg.valid_ratio⌋))) :
    ∃ Xv Yv, (resolveData ext cfg X y xv yv).2 = (some Xv, some Yv) ∧ Xv ≠ [] := by
  rcases H with ⟨Xv0, Yv0, hx, hy, hne⟩ | ⟨hx, hy, hlen, hcase⟩
  · subst hx
    subst hy
    exact ⟨Xv0, Yv0, rfl, hne⟩
  · subst hx
    subst hy
    rcases hcase with ⟨hr, hXne⟩ | hfl
    · simp only [resolveData, if_neg (not_lt.mpr hr)]
      exact ⟨X, y, rfl, hXne⟩
    · have h0 : 0 < cfg.valid_ratio := by
        by_contra hc
        push_neg at hc
        have hle : (X.length : ℚ) * cfg.valid_ratio ≤ 0 :=
          mul_nonpos_iff.mpr (Or.inl ⟨Nat.cast_nonneg _, hc⟩)
        have : ⌊(X.length : ℚ) * cfg.valid_ratio⌋ ≤ 0 := Int.floor_nonpos hle
        omega
      have hpy : pyInt (((ext.shuffle cfg.random_state X y).1.length : ℚ) * cfg.valid_ratio)
          = ⌊(X.length : ℚ) * cfg.valid_ratio⌋ := by
        rw [hlen]
        exact pyInt_of_nonneg (mul_nonneg (Nat.cast_nonneg _) (le_of_lt h0))
      have hn1 : 1 ≤ X.length := by
        by_contra hc
        push_neg at hc
        have hz : X.length = 0 := by omega
        rw [hz] at hfl
        simp at hfl
      have hidxlt : pySliceIdx (ext.shuffle cfg.random_state X y).1.length
          (((ext.shuffle cfg.random_state X y).1.length : Int)
            - pyInt (((ext.shuffle cfg.random_state X y).1.length : ℚ) * cfg.valid_ratio))
          < (ext.shuffle cfg.random_state X y).1.length := by
        rw [hpy, hlen]
        unfold pySliceIdx
        split <;> omega
      simp only [resolveData, if_pos h0]
      refine ⟨_, _, rfl, ?_⟩
      apply List.ne_nil_of_length_pos
      rw [List.length_drop]
      omega

/-- C5 witness: with explicit non-empty validation data the resolved
validation set is that data and in particular non-empty. -/
theorem C5_validation_nonempty_witness :
    ∃ Xv Yv, (resolveData extW cfgW [1] [2] (some [7]) (some [8])).2
      = (some Xv, some Yv) ∧ Xv ≠ [] :=
  C5_validation_nonempty extW cfgW [1] [2] (some [7]) (some [8])
    (Or.inl ⟨[7], [8], rfl, rfl, by decide⟩)

/-- The configuration of the degenerate-split counterexample run. -/
def cfgTenth : Config Nat := { cfgW with nb_iter := 1, valid_ratio := mkRat 1 10 }

/-- The state produced by the counterexample run: one candidate, scored. -/
def stC5 : ClassifierState Nat Nat :=
  { walker := 1
    codes_ := ["a"]
    estimators_ := [1]
    scores_ := [((0 : Nat) : ℚ)]
    best_score_ := some ((0 : Nat) : ℚ)
    best_estimator_ := some 1
    best_estimator_code_ := some "a" }

/-- C5 counterexample: the claim as stated is false.  With five rows,
`valid_ratio = 1/10` and no explicit validation data, the split is
degenerate (`int(5 * 0.1) = 0`): the resolved validation set is the empty
list, yet the `fit` call scores one candidate against it (the candidate
lists gain one entry). -/
theorem C5_counterexample :
    (resolveData extW cfgTenth [1, 2, 3, 4, 5] [0, 0, 0, 0, 0] none none).2.1
      = some ([] : List Nat) ∧
    Classifier.fit extW cfgTenth (initState 0) [1, 2, 3, 4, 5] [0, 0, 0, 0, 0]
      none none = .ok stC5 ∧
    stC5.scores_.length = 1 := by
  refine ⟨?_, ?_, rfl⟩
  · with_unfolding_all rfl
  · with_unfolding_all rfl

/-- When every `eval` succeeds and every training call raises, the loop
succeeds and only advances the walker. -/
theorem fitLoop_all_fail {ext : Externals ρ lab ω μ} {cfg : Config lab}
    {Xt : List ρ} {yt : List lab} {Xv : List ρ} {yv : List lab}
    (hev : ∀ s, (ext.evalCode s).isSome = true)
    (htr : ∀ m A b, ext.trainModel m A b = none) :
    ∀ (n : Nat) (st : ClassifierState ω μ),
      ∃ w2, fitLoop ext cfg Xt yt Xv yv n st = .ok { st with walker := w2 } := by
  intro n
  induction n with
  | zero => intro st; exact ⟨st.walker, rfl⟩
  | succ n ih =>
    intro st
    obtain ⟨clf, hclf⟩ :=
      Option.isSome_iff_exists.mp (hev (ext.renderTerminals (ext.walk st.walker)))
    have hit : fitIter ext cfg Xt yt Xv yv st = .ok { st with walker := ext.walk st.walker } :=
      fitIter_train_fail hclf (htr clf Xt yt)
    obtain ⟨w2, hrec⟩ := ih { st with walker := ext.walk st.walker }
    refine ⟨w2, ?_⟩
    simp only [fitLoop, hit]
    exact hrec

/-- C6: on a fresh instance whose every iteration fails in training, `fit`
completes without raising and with all three candidate lists empty, the
three best fields stay unset, both prediction entry points fail with the
no-model condition, and they keep failing after any further `fit` call that
still produces an empty candidate sequence. -/
theorem C6_empty_result (ext : Externals ρ lab ω μ) (cfg : Config lab) (w : ω)
    (X : List ρ) (y : List lab) (Xv : List ρ) (Yv : List lab)
    (hev : ∀ s, (ext.evalCode s).isSome = true)
    (htr : ∀ m A b, ext.trainModel m A b = none) :
    ∃ st2, Classifier.fit ext cfg (initState w) X y (some Xv) (some Yv) = .ok st2 ∧
      st2.codes_ = [] ∧ st2.estimators_ = [] ∧ st2.scores_ = [] ∧
      st2.best_score_ = none ∧ st2.best_estimator_ = none ∧
      st2.best_estimator_code_ = none ∧
      (∀ Q, Classifier.predict ext st2 Q = .error .noModel) ∧
      (∀ Q, Classifier.predict_proba ext st2 Q = .error .noModel) ∧
      ∀ (ext2 : Externals ρ lab ω μ) (cfg2 : Config lab) X2 y2 xv2 yv2 st3,
        Classifier.fit ext2 cfg2 st2 X2 y2 xv2 yv2 = .ok st3 → st3.scores_ = [] →
        ∀ Q, Classifier.predict ext2 st3 Q = .error .noModel := by
  have hall : ∀ (n : Nat) (st : ClassifierState ω μ),
      ∃ w2, fitLoop ext cfg X y Xv Yv n st = .ok { st with walker := w2 } :=
    fitLoop_all_fail hev htr
  obtain ⟨w2, hloop⟩ := hall cfg.nb_iter (initState w)
  refine ⟨{ initState w with walker := w2 }, ?_, rfl, rfl, rfl, rfl, rfl, rfl,
    fun Q => rfl, fun Q => rfl, ?_⟩
  · simp only [Classifier.fit, resolveData]
    rw [hloop]
    exact congrArg Except.ok (selectBest_of_empty rfl)
  · intro ext2 cfg2 X2 y2 xv2 yv2 st3 hfit3 hsc3 Q
    obtain ⟨st4, Xv4, yv4, hres4, hloop4, hsel4⟩ := fit_ok_destruct hfit3
    have hs4 : st4.scores_ = [] := by
      rw [hsel4] at hsc3
      rw [(selectBest_lists st4).2.2.1] at hsc3
      exact hsc3
    have hbe : st4.best_estimator_ = none := (fitLoop_ok_extend hloop4).2.2.1
    rw [hsel4, selectBest_of_empty hs4]
    simp only [Classifier.predict, hbe]

/-- C6 witness: the property evaluated on concrete collaborators whose
training always raises — `fit` returns, the instance is unusable for
prediction, and stays so after a second all-failing `fit` call. -/
theorem C6_empty_result_witness :
    ∃ st2, Classifier.fit extFail cfgW (initState 0) [1] [2] (some [3]) (some [4])
        = .ok st2 ∧
      st2.codes_ = [] ∧ st2.estimators_ = [] ∧ st2.scores_ = [] ∧
      st2.best_score_ = none ∧ st2.best_estimator_ = none ∧
      st2.best_estimator_code_ = none ∧
      (∀ Q, Classifier.predict extFail st2 Q = .error .noModel) ∧
      (∀ Q, Classifier.predict_proba extFail st2 Q = .error .noModel) ∧
      ∀ (ext2 : Externals Nat Nat Nat Nat) (cfg2 : Config Nat) X2 y2 xv2 yv2 st3,
        Classifier.fit ext2 cfg2 st2 X2 y2 xv2 yv2 = .ok st3 → st3.scores_ = [] →
        ∀ Q, Classifier.predict ext2 st3 Q = .error .noModel :=
  C6_empty_result extFail cfgW 0 [1] [2] [3] [4] (fun _ => rfl) (fun _ _ _ => rfl)

end PipelineOpt
